import Mathlib

set_option linter.unusedVariables false

/-!
Verification of the aport FastAPI agent-passport middleware
(`src/middleware/fastapi/src/agent_passport_middleware/`).

The Python modules are shallowly embedded as pure Lean functions.
Effectful steps (HTTP calls to the directory service, exceptions raised
by library code) are passed in as explicit parameters of type
`Option`/`Except`: a value of `Except.error` models the corresponding
Python call raising, and `Option.none` models an absent response.
Wall-clock time is passed as an integer `now` parameter; the module-level
mutable caches are passed in and returned as explicit association lists.
Each embedded function carries the name of its Python source.
-/

namespace AportMiddleware

/-- Python truthiness of an optional string: `None` and the empty string
are falsy, every other string is truthy. -/
def pyTruthy : Option String → Bool
  | none => false
  | some s => s ≠ ""

/-- Python `a or b` over optional strings: keeps `a` when it is truthy,
otherwise evaluates to `b`. -/
def pyOr (a b : Option String) : Option String :=
  if pyTruthy a then a else b

/-- Request headers, modelled as an association list whose keys are
already lower-cased (starlette header lookup is case-insensitive). -/
abbrev Headers := List (String × String)

/-- Header lookup, `request.headers.get(k)`. -/
def hget (hs : Headers) (k : String) : Option String :=
  (hs.find? (fun kv => kv.1 == k)).map (fun kv => kv.2)

/-- Request context / JSON body, modelled as an association list of
string fields.  Only its identity matters for the cache claims. -/
abbrev Ctx := List (String × String)

namespace PolicyEnforcementV2

/-- `policy_enforcement_v2.PolicyEnforcementConfig` (dataclass defaults). -/
structure PolicyEnforcementConfig where
  api_base_url : String := "https://api.aport.io"
  cache_ttl : Int := 60
  fail_closed : Bool := true
  enabled : Bool := true
  strict_mode : Bool := true
  log_violations : Bool := true
deriving Repr, DecidableEq

/-- The `evaluation` object nested in the verify response
(`convert_policy_response` reads `capability_ok` and friends from it,
each defaulting to `False` when absent). -/
structure EvalJson where
  capability_ok : Option Bool := none
  assurance_ok : Option Bool := none
  limits_ok : Option Bool := none
  regions_ok : Option Bool := none
deriving Repr, DecidableEq

/-- The `passport` object of the verify response as read by
`convert_policy_response` (every field optional, with the defaults the
Python `.get` calls supply). -/
structure PassportJson where
  agent_id : Option String := none
  status : Option String := none
  capabilities : List String := []
  limits : List (String × Int) := []
  regions : List String := []
  assurance_level : Option String := none
  evaluation : Option EvalJson := none
deriving Repr, DecidableEq

/-- The JSON body returned by `POST /api/verify/policy/{policy_id}` as the
middleware consumes it: an `allow` flag, an optional `reason`, a list of
`violations` and the nested `passport` object. -/
structure VerifyResult where
  allow : Bool
  reason : Option String := none
  violations : List String := []
  passport : Option PassportJson := none
deriving Repr, DecidableEq

/-- Outcome of one `httpx` POST to the verify endpoint: HTTP status code
plus parsed JSON body.  A raised exception is modelled by the caller
passing `Option.none` instead of a `ServerResp`. -/
structure ServerResp where
  status : Nat
  result : VerifyResult
deriving Repr, DecidableEq

/-- One entry of the module-level `_verification_cache` dictionary:
`{"result": ..., "expires": ...}`. -/
structure CacheEntry where
  result : VerifyResult
  expires : Int
deriving Repr, DecidableEq

/-- The module-level `_verification_cache` dictionary, as an association
list from cache key to entry. -/
abbrev Cache := List (String × CacheEntry)

/-- Dictionary lookup `_verification_cache.get(key)`. -/
def cacheGet (c : Cache) (key : String) : Option CacheEntry :=
  (c.find? (fun kv => kv.1 == key)).map (fun kv => kv.2)

/-- Dictionary assignment `_verification_cache[key] = e` (replaces any
previous entry for the key). -/
def cacheInsert (c : Cache) (key : String) (e : CacheEntry) : Cache :=
  (key, e) :: c.filter (fun kv => kv.1 ≠ key)

/-- The cache key built at the top of `verify_policy_compliance`:
`f"policy:{policy_id}:{agent_id}"`.  It is built from the policy id and
the agent id only; the request context does not appear in it. -/
def cache_key (policy_id agent_id : String) : String :=
  "policy:" ++ policy_id ++ ":" ++ agent_id

/-- Result of one run of `verify_policy_compliance`: the returned value,
the verification cache after the run, and whether the directory service
was contacted (the `httpx` POST inside the `try` block was reached). -/
structure VPCOut where
  result : Option VerifyResult
  cache : Cache
  called : Bool
deriving Repr, DecidableEq

/-- The `try` block of `verify_policy_compliance`: POST to the verify
endpoint; on status 200 cache the result when `result.get("allow")` is
truthy (expiry = now + `cache_ttl`) and return it; on any other status
or on a raised exception (`server = none`) log and return `None`. -/
def vpcCallServer (key : String) (config : PolicyEnforcementConfig)
    (cache : Cache) (now : Int) (server : Option ServerResp) : VPCOut :=
  match server with
  | none => ⟨none, cache, true⟩
  | some resp =>
    if resp.status == 200 then
      if resp.result.allow then
        ⟨some resp.result,
         cacheInsert cache key ⟨resp.result, now + config.cache_ttl⟩, true⟩
      else
        ⟨some resp.result, cache, true⟩
    else
      ⟨none, cache, true⟩

/-- `policy_enforcement_v2.verify_policy_compliance`.  Note that the
`context` argument is sent to the server (its influence is reflected in
the `server` parameter chosen by the caller) but takes no part in the
cache key or the cache lookup. -/
def verify_policy_compliance (agent_id policy_id : String) (context : Ctx)
    (config : PolicyEnforcementConfig) (cache : Cache) (now : Int)
    (server : Option ServerResp) : VPCOut :=
  let key := cache_key policy_id agent_id
  match cacheGet cache key with
  | some cached =>
    if cached.expires > now then ⟨some cached.result, cache, false⟩
    else vpcCallServer key config cache now server
  | none => vpcCallServer key config cache now server

/-- Whether the cache holds a non-expired entry for `key` at time `now`
(the condition under which `verify_policy_compliance` serves from
cache). -/
def cacheFresh (cache : Cache) (key : String) (now : Int) : Bool :=
  match cacheGet cache key with
  | some cached => cached.expires > now
  | none => false

/-- `policy_enforcement_v2.PolicyPack` (fields read off the policy JSON,
with the Python defaults). -/
structure PolicyPack where
  id : Option String := none
  name : Option String := none
  requires_capabilities : List String := []
  min_assurance : Option String := none
  limits_required : List String := []
deriving Repr, DecidableEq

/-- `policy_enforcement_v2.PassportData` (fields read off the passport
JSON, with the Python defaults).  `assurance_verified_at` is a
wall-clock timestamp in the source and is left out of the model. -/
structure PassportData where
  agent_id : Option String := none
  name : Option String := none
  status : Option String := none
  capabilities : List String := []
  limits : List (String × Int) := []
  regions : List String := []
  assurance_level : Option String := none
  assurance_method : Option String := none
deriving Repr, DecidableEq

/-- `policy_enforcement_v2.PolicyResult`: passport, policy, and the
`checks` dictionary (kept as an association list so that
`all(result.checks.values())` is a fold over the stored values). -/
structure PolicyResult where
  passport : PassportData
  policy : PolicyPack
  checks : List (String × Bool)
deriving Repr, DecidableEq

/-- `policy_enforcement_v2.convert_policy_response`: builds a
`PolicyResult` from the verify response, reading the evaluation flags
from `response["passport"]["evaluation"]` with default `False` for a
missing flag. -/
def convert_policy_response (response : VerifyResult) (policy : PolicyPack) :
    PolicyResult :=
  let passport_data := response.passport.getD {}
  let evaluation := passport_data.evaluation.getD {}
  { passport :=
      { agent_id := passport_data.agent_id
        name := passport_data.agent_id
        status := passport_data.status
        capabilities := passport_data.capabilities
        limits := passport_data.limits
        regions := passport_data.regions
        assurance_level := passport_data.assurance_level
        assurance_method := some "api_verification" }
    policy := policy
    checks :=
      [("capability", evaluation.capability_ok.getD false),
       ("assurance", evaluation.assurance_ok.getD false),
       ("limits", evaluation.limits_ok.getD false),
       ("regions", evaluation.regions_ok.getD false)] }

/-- `policy_enforcement_v2.get_policy_result`: reads
`request.state.policy_result` (the middleware state is modelled as the
optional attached result itself). -/
def get_policy_result (state : Option PolicyResult) : Option PolicyResult :=
  state

/-- `policy_enforcement_v2.has_policy_access`:
`result and all(result.checks.values()) if result else False`. -/
def has_policy_access (state : Option PolicyResult) : Bool :=
  match get_policy_result state with
  | some result => result.checks.all (fun kv => kv.2)
  | none => false

/-- The `detail` dictionaries raised by the middleware created by
`create_agent_passport_middleware`, one constructor per `raise` site. -/
inductive MwDetail where
  | policy_id_required
  | policy_verification_failed
  | policy_violation (message : String) (violations : List String)
      (agent_id policy_id : String)
deriving Repr, DecidableEq

/-- Outcome of the middleware body: either the request proceeded to
`call_next` (carrying the policy result attached to `request.state`, if
any), or an `HTTPException` was raised. -/
inductive MwOutcome where
  | next (policy_result : Option PolicyResult)
  | httpError (status : Nat) (detail : MwDetail)
deriving Repr, DecidableEq

/-- Result of one run of the `create_agent_passport_middleware`
middleware: outcome, verification cache afterwards, and whether the
verify endpoint was contacted. -/
structure MwRun where
  outcome : MwOutcome
  cache : Cache
  called : Bool
deriving Repr, DecidableEq

/-- The middleware closure built by
`policy_enforcement_v2.create_agent_passport_middleware`.
`policy_id` is the value of `request.state.policy_id or
headers["x-policy-id"]`; `context` the policy context (state value or
parsed body, `{}` on parse failure); `server` the directory behaviour
for the verify POST; `policyPack` the outcome of `fetch_policy_pack`. -/
def create_agent_passport_middleware_run (agent_id : String)
    (config : PolicyEnforcementConfig) (policy_id : Option String)
    (context : Ctx) (cache : Cache) (now : Int)
    (server : Option ServerResp) (policyPack : Option PolicyPack) : MwRun :=
  if ¬config.enabled then ⟨.next none, cache, false⟩
  else if ¬pyTruthy policy_id then
    ⟨.httpError 400 .policy_id_required, cache, false⟩
  else
    let pid := policy_id.getD ""
    let v := verify_policy_compliance agent_id pid context config cache now server
    match v.result with
    | none =>
      if config.fail_closed then
        ⟨.httpError 500 .policy_verification_failed, v.cache, v.called⟩
      else ⟨.next none, v.cache, v.called⟩
    | some resp =>
      if ¬resp.allow then
        if config.fail_closed then
          ⟨.httpError 403
             (.policy_violation (resp.reason.getD "Policy violation")
               resp.violations agent_id pid), v.cache, v.called⟩
        else ⟨.next none, v.cache, v.called⟩
      else
        match policyPack with
        | some p =>
          ⟨.next (some (convert_policy_response resp p)), v.cache, v.called⟩
        | none => ⟨.next none, v.cache, v.called⟩

end PolicyEnforcementV2

/-- A Python value as it can occur in a passport `capabilities` array:
a string, a dict (of which only the optional `id` field is relevant to
`_extract_capability_ids`), or some other object carrying its `str()`
rendering. -/
inductive PyVal where
  | str (s : String)
  | dict (idField : Option PyVal)
  | other (rendering : String)
deriving Repr

/-- Whether a `PyVal` is a Python string. -/
def PyVal.isStr : PyVal → Bool
  | .str _ => true
  | _ => false

/-- The agent-id extraction shared by `middleware_simple.dispatch`
(lines 58-63) and `middleware_v2.dispatch` (lines 89-94):
`headers.get("x-agent-passport-id") or headers.get("x-agent-id") or
(auth[7:] if auth and auth.startswith("Bearer ") else None)`. -/
def extract_agent_id (headers : Headers) : Option String :=
  let auth := hget headers "authorization"
  let bearer : Option String :=
    match auth with
    | some a => if a.startsWith "Bearer " then some (a.drop 7) else none
    | none => none
  pyOr (pyOr (hget headers "x-agent-passport-id") (hget headers "x-agent-id"))
    bearer

/-- The fields of `AgentPassportMiddlewareOptions` (defined in the
package `types` module, not part of the sources here) that the three
middleware classes read; field set taken from those uses and from the
`DEFAULT_OPTIONS` literal in `middleware_v3.py`. -/
structure MwOptions where
  fail_closed : Bool := true
  skip_paths : List String := []
  skip_methods : List String := ["OPTIONS"]
  required_permissions : List String := []
  allowed_regions : List String := []
  policy_id : Option String := none

/-- The fields of the SDK type `AgentPassport` that the middleware
classes read. -/
structure Agent where
  permissions : List String := []
  regions : List String := []
  capabilities : List PyVal := []
  limits : Option (List (String × Int)) := none

/-- The fields of the SDK exception `AgentPassportError` that the
middleware exception handlers read. -/
structure AgentPassportError where
  code : String
  message : String
  status_code : Option Nat := none
  agent_id : Option String := none
deriving Repr, DecidableEq

/-- Python `e.status_code or 500` (both `None` and `0` are falsy). -/
def statusOr500 : Option Nat → Nat
  | some n => if n == 0 then 500 else n
  | none => 500

/-- Outcome of an awaited verify call: the agent, a raised
`AgentPassportError`, or an unexpected exception with its message. -/
inductive VerifyOutcome where
  | ok (agent : Agent)
  | ape (e : AgentPassportError)
  | unexpected (message : String)

namespace MiddlewareSimple

/-- `middleware_simple.AgentPassportMiddleware._should_skip_request`:
method membership in `skip_methods`, or a *prefix* match of the URL
path against any entry of `skip_paths`. -/
def should_skip_request (opts : MwOptions) (method path : String) : Bool :=
  opts.skip_methods.contains method ||
    opts.skip_paths.any (fun p => path.startsWith p)

/-- The JSON bodies `middleware_simple.dispatch` can produce. -/
inductive Body where
  | missing_agent_id
  | passport_error (code message : String) (agent_id : Option String)
  | internal_error
deriving Repr, DecidableEq

/-- Result of `middleware_simple.dispatch`: either the downstream
handler ran (with the agent attached to `request.state`, if any), or a
`JSONResponse` error was returned. -/
inductive Response where
  | next (agent : Option Agent)
  | json (status : Nat) (body : Body)

/-- One run of `middleware_simple.dispatch`, plus whether the directory
client (`verify_agent_passport`) was awaited. -/
structure Run where
  resp : Response
  directoryCalled : Bool

/-- `middleware_simple.AgentPassportMiddleware.dispatch`. -/
def dispatch (opts : MwOptions) (method path : String) (headers : Headers)
    (verify : VerifyOutcome) : Run :=
  if should_skip_request opts method path then ⟨.next none, false⟩
  else
    let agent_id := extract_agent_id headers
    if ¬pyTruthy agent_id then
      if opts.fail_closed then ⟨.json 400 .missing_agent_id, false⟩
      else ⟨.next none, false⟩
    else
      match verify with
      | .ok agent => ⟨.next (some agent), true⟩
      | .ape e =>
        ⟨.json (statusOr500 e.status_code)
           (.passport_error e.code e.message e.agent_id), true⟩
      | .unexpected _ => ⟨.json 500 .internal_error, true⟩

end MiddlewareSimple

namespace MiddlewareV2

/-- `middleware_v2.AgentPassportMiddleware._extract_capability_ids`:
keep strings, replace a dict by `cap.get("id", cap)`, and apply `str`
to anything else. -/
def extract_capability_ids : List PyVal → List PyVal
  | [] => []
  | PyVal.str s :: rest => PyVal.str s :: extract_capability_ids rest
  | PyVal.dict idField :: rest =>
    (match idField with
     | some v => v
     | none => PyVal.dict idField) :: extract_capability_ids rest
  | PyVal.other rendering :: rest =>
    PyVal.str rendering :: extract_capability_ids rest

/-- The fields of the result dict of the SDK function
`check_capability_requirement` that `dispatch` reads. -/
structure CheckCapability where
  allowed : Bool
  required : List String := []
  missing : List String := []

/-- The fields of the result dict of the SDK function
`check_assurance_requirement` that `dispatch` reads. -/
structure CheckAssurance where
  allowed : Bool
  current_level : Option String := none
  current_level_name : Option String := none
  required_level : Option String := none
  required_level_name : Option String := none
  upgrade_instructions : Option String := none
  docs_url : Option String := none

/-- An `error` dict carried by an MCP check result. -/
structure McpError where
  error : String
  message : String
deriving Repr, DecidableEq

/-- The fields of the result dict of the SDK function
`check_mcp_requirement` that `dispatch` reads. -/
structure CheckMcp where
  allowed : Bool
  error : Option McpError := none

/-- The fields of the result dict of the SDK function
`check_region_requirements` that `dispatch` reads. -/
structure CheckRegion where
  allowed : Bool
  reason : Option String := none
  error : Option String := none

/-- The fields of the result dict of the SDK function
`check_limits_for_operation` that `dispatch` reads. -/
structure CheckLimits where
  allowed : Bool
  violations : List String := []

/-- The five SDK enforcement check results consumed by `dispatch`, in
source order. -/
structure SdkChecks where
  capability : CheckCapability
  assurance : CheckAssurance
  mcp : CheckMcp
  region : CheckRegion
  limits : CheckLimits

/-- The JSON bodies `middleware_v2.dispatch` can produce, one
constructor per `JSONResponse` literal, carrying the fields of that
literal. -/
inductive Body where
  | missing_agent_id
  | insufficient_permissions (required current : List String)
  | region_not_allowed (allowed current : List String)
  | insufficient_capabilities (required missing : List String)
      (current : List PyVal)
  | insufficient_assurance (check : CheckAssurance)
  | mcp_denied (content : McpError)
  | region_check_failed (error_code message : String)
      (allowed_regions agent_regions : List String)
  | limits_exceeded (violations : List String) (limits : List (String × Int))
  | passport_error (code message : String) (agent_id : Option String)
  | internal_error

/-- The `error` field of a response body (the stable error code of the
diagnostic payload). -/
def Body.errCode : Body → String
  | .missing_agent_id => "missing_agent_id"
  | .insufficient_permissions _ _ => "insufficient_permissions"
  | .region_not_allowed _ _ => "region_not_allowed"
  | .insufficient_capabilities _ _ _ => "insufficient_capabilities"
  | .insufficient_assurance _ => "insufficient_assurance"
  | .mcp_denied content => content.error
  | .region_check_failed error_code _ _ _ => error_code
  | .limits_exceeded _ _ => "limits_exceeded"
  | .passport_error code _ _ => code
  | .internal_error => "internal_error"

/-- Result of `middleware_v2.dispatch`: either the downstream handler
ran (with the agent attached), or a `JSONResponse` error was
returned. -/
inductive Response where
  | next (agent : Option Agent)
  | json (status : Nat) (body : Body)

/-- One run of `middleware_v2.dispatch`, plus whether the directory
client (`verify_agent_passport`) was awaited. -/
structure Run where
  resp : Response
  directoryCalled : Bool

/-- `middleware_v2.AgentPassportMiddleware._should_skip_request`:
identical to the simple variant (method membership, path prefix
match). -/
def should_skip_request (opts : MwOptions) (method path : String) : Bool :=
  opts.skip_methods.contains method ||
    opts.skip_paths.any (fun p => path.startsWith p)

/-- `middleware_v2.AgentPassportMiddleware.dispatch`.
`hasPermission` and `allowedInRegion` stand for the SDK client
predicates `has_permission agent` and `is_allowed_in_region agent`;
`checks` are the results of the five SDK check functions, which the
dispatch merely consumes in a fixed order. -/
def dispatch (opts : MwOptions) (method path : String) (headers : Headers)
    (verify : VerifyOutcome) (hasPermission allowedInRegion : String → Bool)
    (checks : SdkChecks) : Run :=
  if should_skip_request opts method path then ⟨.next none, false⟩
  else
    let agent_id := extract_agent_id headers
    if ¬pyTruthy agent_id then
      if opts.fail_closed then ⟨.json 400 .missing_agent_id, false⟩
      else ⟨.next none, false⟩
    else
      match verify with
      | .ape e =>
        ⟨.json (statusOr500 e.status_code)
           (.passport_error e.code e.message e.agent_id), true⟩
      | .unexpected _ => ⟨.json 500 .internal_error, true⟩
      | .ok agent =>
        if ¬opts.required_permissions.isEmpty ∧
            ¬opts.required_permissions.all hasPermission then
          ⟨.json 403 (.insufficient_permissions opts.required_permissions
             agent.permissions), true⟩
        else if ¬opts.allowed_regions.isEmpty ∧
            ¬opts.allowed_regions.any allowedInRegion then
          ⟨.json 403 (.region_not_allowed opts.allowed_regions agent.regions),
           true⟩
        else
          let agent_capabilities := extract_capability_ids agent.capabilities
          if ¬checks.capability.allowed then
            ⟨.json 403 (.insufficient_capabilities checks.capability.required
               checks.capability.missing agent_capabilities), true⟩
          else if ¬checks.assurance.allowed then
            ⟨.json 403 (.insufficient_assurance checks.assurance), true⟩
          else if ¬checks.mcp.allowed then
            ⟨.json 403 (.mcp_denied
               (checks.mcp.error.getD ⟨"mcp_denied", "MCP access denied"⟩)),
             true⟩
          else if ¬checks.region.allowed then
            ⟨.json 403 (.region_check_failed
               (checks.region.reason.getD "region_not_allowed")
               (checks.region.error.getD "Region validation failed")
               opts.allowed_regions agent.regions), true⟩
          else if ¬checks.limits.allowed then
            ⟨.json 403 (.limits_exceeded checks.limits.violations
               (agent.limits.getD [])), true⟩
          else ⟨.next (some agent), true⟩

end MiddlewareV2

namespace MiddlewareV3

/-- Modelled from the spec: `extract_agent_id_from_request` lives in the
package `validation` module, which is not among the sources here.
Spec section 6 gives the extraction precedence as dedicated identity
header, generic agent-id header, then Bearer authorization token (the
explicit-parameter source does not apply inside `dispatch`). -/
def extract_agent_id_from_request (headers : Headers) : Option String :=
  extract_agent_id headers

/-- `middleware_v3.AgentPassportMiddleware._should_skip_verification`:
*exact* path membership in `skip_paths`, or method membership in
`skip_methods`. -/
def should_skip_verification (opts : MwOptions) (method path : String) :
    Bool :=
  opts.skip_paths.contains path || opts.skip_methods.contains method

/-- The `detail` payload of an `HTTPException` raised inside
`_run_enforcement_checks`. -/
structure HttpDetail where
  error : String
  message : String
  agent_id : Option String := none
  policy_id : Option String := none
  violations : Option (List String) := none
deriving Repr, DecidableEq

/-- An `HTTPException` as raised inside `_run_enforcement_checks`. -/
structure HttpErr where
  status : Nat
  detail : HttpDetail
deriving Repr, DecidableEq

/-- The fields of the SDK `verify_policy` result dict that
`_run_enforcement_checks` reads. -/
structure V3VerifyResult where
  allowed : Bool
  reason : Option String := none
  violations : List String := []
deriving Repr, DecidableEq

/-- An `evaluation` payload extracted by the SDK helper
`get_policy_result`, kept abstract as a string dictionary. -/
abbrev Evaluation := List (String × String)

/-- The `PolicyResult` object from the package `types` module that the
v3 middleware attaches to `request.state.policy_result`. -/
structure MwPolicyResult where
  allowed : Bool
  evaluation : Evaluation
  error : Option String
deriving Repr, DecidableEq

/-- `middleware_v3.AgentPassportMiddleware._run_enforcement_checks`.
The awaited SDK calls are passed as `Except` values whose `error`
constructor models the call raising an unexpected exception with the
given message; `policy = Except.ok none` models `get_policy` returning
a falsy value.  An inner `HTTPException` is re-raised unchanged by
`except HTTPException: raise`; every other exception is wrapped into a
500 whose message embeds `str(e)`. -/
def run_enforcement_checks (agent_id policy_id : String)
    (hasAccess : Except String Bool)
    (policy : Except String (Option Unit))
    (verifyRes : Except String V3VerifyResult)
    (extractedResult : Option Evaluation) : Except HttpErr MwPolicyResult :=
  let wrap : String → HttpErr := fun msg =>
    ⟨500, ⟨"enforcement_error", "Failed to run enforcement checks: " ++ msg,
      some agent_id, some policy_id, none⟩⟩
  match hasAccess with
  | .error msg => .error (wrap msg)
  | .ok has_access =>
    if ¬has_access then
      .error ⟨403, ⟨"policy_access_denied",
        "Agent does not have access to policy " ++ policy_id,
        some agent_id, some policy_id, none⟩⟩
    else
      match policy with
      | .error msg => .error (wrap msg)
      | .ok none =>
        .error ⟨404, ⟨"policy_not_found",
          "Policy " ++ policy_id ++ " not found",
          some agent_id, some policy_id, none⟩⟩
      | .ok (some _) =>
        match verifyRes with
        | .error msg => .error (wrap msg)
        | .ok policy_result =>
          if ¬policy_result.allowed then
            .error ⟨403, ⟨"policy_violation",
              policy_result.reason.getD "Policy violation",
              some agent_id, some policy_id, some policy_result.violations⟩⟩
          else
            .ok ⟨true, extractedResult.getD [], none⟩

/-- The JSON bodies `middleware_v3.dispatch` can produce. -/
inductive Body where
  | missing_agent_id
  | agent_verification_failed (message : String) (agent_id : String)
  | middleware_error
deriving Repr, DecidableEq

/-- Result of `middleware_v3.dispatch`: either the downstream handler
ran (with the attached agent and policy result, if any), or a
`JSONResponse` was returned. -/
inductive Response where
  | next (agent : Option Agent) (policy_result : Option MwPolicyResult)
  | json (status : Nat) (body : Body)

/-- One run of `middleware_v3.dispatch`, plus whether the directory
(`verify_agent_passport`) was awaited. -/
structure Run where
  resp : Response
  directoryCalled : Bool

/-- `middleware_v3.AgentPassportMiddleware.dispatch`.  Its outer
`except Exception` clause catches every exception raised inside the
`try` block, including the `HTTPException`s raised by
`_run_enforcement_checks`, and converts them all to a constant 500
`middleware_error` response. -/
def dispatch (opts : MwOptions) (method path : String) (headers : Headers)
    (verify : VerifyOutcome) (hasAccess : Except String Bool)
    (policy : Except String (Option Unit))
    (verifyRes : Except String V3VerifyResult)
    (extractedResult : Option Evaluation) : Run :=
  if should_skip_verification opts method path then ⟨.next none none, false⟩
  else
    let agent_id := extract_agent_id_from_request headers
    if ¬pyTruthy agent_id ∧ opts.fail_closed then
      ⟨.json 401 .missing_agent_id, false⟩
    else if pyTruthy agent_id then
      match verify with
      | .ape e =>
        ⟨.json 401 (.agent_verification_failed e.message (agent_id.getD "")),
         true⟩
      | .unexpected _ => ⟨.json 500 .middleware_error, true⟩
      | .ok agent =>
        if pyTruthy opts.policy_id then
          match run_enforcement_checks (agent_id.getD "")
              (opts.policy_id.getD "") hasAccess policy verifyRes
              extractedResult with
          | .error _ => ⟨.json 500 .middleware_error, true⟩
          | .ok att => ⟨.next (some agent) (some att), true⟩
        else ⟨.next (some agent) none, true⟩
    else ⟨.next none none, false⟩

end MiddlewareV3

namespace PolicyEnforcementV2

/-- A denied verify response, as the server returns it for a request
exceeding a limit. -/
def denyResult : VerifyResult :=
  { allow := false
    reason := some "limit_exceeded"
    violations := ["refund_amount_max_per_tx"] }

/-- An allowed verify response with no passport payload. -/
def allowResult : VerifyResult := { allow := true }

/-- An evaluation in which every dimension passed. -/
def allowEvaluation : EvalJson :=
  { capability_ok := some true
    assurance_ok := some true
    limits_ok := some true
    regions_ok := some true }

/-- An allowed verify response carrying a passport whose evaluation
passed every dimension. -/
def fullAllowResult : VerifyResult :=
  { allow := true
    passport := some { evaluation := some allowEvaluation } }

/-- A fail-open configuration (all other fields at their defaults). -/
def cfgOpen : PolicyEnforcementConfig := { fail_closed := false }

/-- A small-amount request context. -/
def ctxSmall : Ctx := [("amount_cents", "500")]

/-- A large-amount request context. -/
def ctxLarge : Ctx := [("amount_cents", "150000")]

end PolicyEnforcementV2

namespace PolicyEnforcementV2

theorem cacheGet_insert_self (c : Cache) (k : String) (e : CacheEntry) :
    cacheGet (cacheInsert c k e) k = some e := by
  simp [cacheGet, cacheInsert, List.find?]

theorem vpcCallServer_called (k : String) (cfg : PolicyEnforcementConfig)
    (c : Cache) (now : Int) (s : Option ServerResp) :
    (vpcCallServer k cfg c now s).called = true := by
  unfold vpcCallServer
  cases s with
  | none => rfl
  | some resp =>
    by_cases h : resp.status == 200
    · simp only [h, if_true]
      by_cases h2 : resp.result.allow <;> simp [h2]
    · simp [h]

theorem vpc_of_not_fresh (agent_id policy_id : String) (ctx : Ctx)
    (cfg : PolicyEnforcementConfig) (cache : Cache) (now : Int)
    (server : Option ServerResp)
    (h : cacheFresh cache (cache_key policy_id agent_id) now = false) :
    verify_policy_compliance agent_id policy_id ctx cfg cache now server =
      vpcCallServer (cache_key policy_id agent_id) cfg cache now server := by
  unfold verify_policy_compliance
  unfold cacheFresh at h
  cases hg : cacheGet cache (cache_key policy_id agent_id) with
  | none => simp [hg]
  | some cached =>
    rw [hg] at h
    simp only [hg]
    rw [if_neg (of_decide_eq_false h)]

theorem vpc_of_fresh (agent_id policy_id : String) (ctx : Ctx)
    (cfg : PolicyEnforcementConfig) (cache : Cache) (now : Int)
    (server : Option ServerResp) (e : CacheEntry)
    (hg : cacheGet cache (cache_key policy_id agent_id) = some e)
    (h : e.expires > now) :
    verify_policy_compliance agent_id policy_id ctx cfg cache now server =
      ⟨some e.result, cache, false⟩ := by
  unfold verify_policy_compliance
  simp only [hg]
  rw [if_pos h]

theorem cacheFresh_mono (cache : Cache) (key : String) (now1 now2 : Int)
    (h : cacheFresh cache key now1 = false) (hle : now1 ≤ now2) :
    cacheFresh cache key now2 = false := by
  unfold cacheFresh at h ⊢
  cases hg : cacheGet cache key with
  | none => rfl
  | some e =>
    rw [hg] at h
    have h1 : ¬(e.expires > now1) := of_decide_eq_false h
    have : ¬(e.expires > now2) := by omega
    exact decide_eq_false this

/-- C1: the claim says the decision cache is keyed by agent id, policy
id and a hash of the request context, so that two in-TTL calls sharing
agent and policy but differing in context can never be served each
other's cached allow-decision.  Counterexample: the source builds the
key as `policy:{policy_id}:{agent_id}` with no context fingerprint; an
allow cached for a small-amount context is served, with no directory
call, to a later call for a large-amount context whose own verification
would have been denied. -/
theorem C1_counterexample :
    ctxSmall ≠ ctxLarge ∧
    (verify_policy_compliance "agent-1" "pol-1" ctxSmall {} [] 0
      (some ⟨200, allowResult⟩)).result = some allowResult ∧
    (verify_policy_compliance "agent-1" "pol-1" ctxLarge {}
      (verify_policy_compliance "agent-1" "pol-1" ctxSmall {} [] 0
        (some ⟨200, allowResult⟩)).cache 1
      (some ⟨200, denyResult⟩)).result = some allowResult ∧
    (verify_policy_compliance "agent-1" "pol-1" ctxLarge {}
      (verify_policy_compliance "agent-1" "pol-1" ctxSmall {} [] 0
        (some ⟨200, allowResult⟩)).cache 1
      (some ⟨200, denyResult⟩)).called = false := by
  refine ⟨by decide, rfl, rfl, rfl⟩

/-- C1 (amended): the verification-cache entry is keyed by the policy
id and the agent id only (`policy:{policy_id}:{agent_id}`); the request
context takes no part in the key, so after an allow-decision is cached,
any later call within the TTL that shares agent and policy is served
that cached allow-decision without contacting the directory, whatever
its context. -/
theorem C1_cache_ignores_context (agent policy : String) (ctx1 ctx2 : Ctx)
    (cfg : PolicyEnforcementConfig) (cache : Cache) (now1 now2 : Int)
    (r : VerifyResult) (server2 : Option ServerResp)
    (hfresh : cacheFresh cache (cache_key policy agent) now1 = false)
    (hallow : r.allow = true)
    (hwin : now2 < now1 + cfg.cache_ttl) :
    (verify_policy_compliance agent policy ctx2 cfg
      (verify_policy_compliance agent policy ctx1 cfg cache now1
        (some ⟨200, r⟩)).cache now2 server2).result = some r ∧
    (verify_policy_compliance agent policy ctx2 cfg
      (verify_policy_compliance agent policy ctx1 cfg cache now1
        (some ⟨200, r⟩)).cache now2 server2).called = false := by
  rw [vpc_of_not_fresh agent policy ctx1 cfg cache now1 _ hfresh]
  unfold vpcCallServer
  simp only [beq_self_eq_true, if_true, hallow]
  rw [vpc_of_fresh agent policy ctx2 cfg _ now2 server2
    ⟨r, now1 + cfg.cache_ttl⟩ (cacheGet_insert_self _ _ _)
    (show now1 + cfg.cache_ttl > now2 by omega)]
  exact ⟨rfl, rfl⟩

/-- C2: `verify_policy_compliance` writes a cache entry if and only if
the server answered with status 200 and `allow = true`; the entry
expires at storage time plus `cache_ttl`.  A denied result is never
stored, so a second identical denied request performs a fresh server
call, while an allowed result is served from the cache, without a
server call, strictly until its expiry timestamp passes. -/
theorem C2_cache_write_iff_allow (agent policy : String) (ctx : Ctx)
    (cfg : PolicyEnforcementConfig) (cache : Cache) (now : Int)
    (server : Option ServerResp) :
    ((∀ resp, server = some resp →
        resp.status ≠ 200 ∨ resp.result.allow = false) →
      (verify_policy_compliance agent policy ctx cfg cache now server).cache =
        cache) ∧
    (∀ r, cacheFresh cache (cache_key policy agent) now = false →
      server = some ⟨200, r⟩ → r.allow = true →
      verify_policy_compliance agent policy ctx cfg cache now server =
        ⟨some r, cacheInsert cache (cache_key policy agent)
          ⟨r, now + cfg.cache_ttl⟩, true⟩) ∧
    (∀ r, cacheFresh cache (cache_key policy agent) now = false →
      server = some ⟨200, r⟩ → r.allow = false →
      (verify_policy_compliance agent policy ctx cfg cache now server).called =
        true ∧
      (∀ now2 (server2 : Option ServerResp) (ctx2 : Ctx), now ≤ now2 →
        (verify_policy_compliance agent policy ctx2 cfg
          (verify_policy_compliance agent policy ctx cfg cache now
            server).cache now2 server2).called = true)) ∧
    (∀ r, cacheFresh cache (cache_key policy agent) now = false →
      server = some ⟨200, r⟩ → r.allow = true →
      (∀ now2 (server2 : Option ServerResp) (ctx2 : Ctx),
        now2 < now + cfg.cache_ttl →
        verify_policy_compliance agent policy ctx2 cfg
          (verify_policy_compliance agent policy ctx cfg cache now
            server).cache now2 server2 =
          ⟨some r, (verify_policy_compliance agent policy ctx cfg cache now
            server).cache, false⟩) ∧
      (∀ now2 (server2 : Option ServerResp) (ctx2 : Ctx),
        now + cfg.cache_ttl ≤ now2 →
        (verify_policy_compliance agent policy ctx2 cfg
          (verify_policy_compliance agent policy ctx cfg cache now
            server).cache now2 server2).called = true)) := by
  refine ⟨?_, ?_, ?_, ?_⟩
  · intro hno
    by_cases hf : cacheFresh cache (cache_key policy agent) now = true
    · unfold cacheFresh at hf
      cases hg : cacheGet cache (cache_key policy agent) with
      | none => rw [hg] at hf; simp at hf
      | some e =>
        rw [hg] at hf
        rw [vpc_of_fresh agent policy ctx cfg cache now server e hg
          (of_decide_eq_true hf)]
    · rw [vpc_of_not_fresh agent policy ctx cfg cache now server
        (by simpa using hf)]
      unfold vpcCallServer
      cases server with
      | none => rfl
      | some resp =>
        dsimp only
        rcases hno resp rfl with h | h
        · rw [if_neg (by simpa using h)]
        · by_cases hs : (resp.status == 200) = true
          · rw [if_pos hs, if_neg (by simp [h])]
          · rw [if_neg hs]
  · intro r hfresh hs hallow
    subst hs
    rw [vpc_of_not_fresh agent policy ctx cfg cache now _ hfresh]
    unfold vpcCallServer
    dsimp only
    rw [if_pos (by simp), if_pos hallow]
  · intro r hfresh hs hallow
    subst hs
    have h1 : verify_policy_compliance agent policy ctx cfg cache now
        (some ⟨200, r⟩) = ⟨some r, cache, true⟩ := by
      rw [vpc_of_not_fresh agent policy ctx cfg cache now _ hfresh]
      unfold vpcCallServer
      dsimp only
      rw [if_pos (by simp), if_neg (by simp [hallow])]
    rw [h1]
    refine ⟨rfl, ?_⟩
    intro now2 server2 ctx2 hle
    rw [vpc_of_not_fresh agent policy ctx2 cfg cache now2 server2
      (cacheFresh_mono cache (cache_key policy agent) now now2 hfresh hle)]
    exact vpcCallServer_called _ _ _ _ _
  · intro r hfresh hs hallow
    subst hs
    have h1 : verify_policy_compliance agent policy ctx cfg cache now
        (some ⟨200, r⟩) =
        ⟨some r, cacheInsert cache (cache_key policy agent)
          ⟨r, now + cfg.cache_ttl⟩, true⟩ := by
      rw [vpc_of_not_fresh agent policy ctx cfg cache now _ hfresh]
      unfold vpcCallServer
      dsimp only
      rw [if_pos (by simp), if_pos hallow]
    rw [h1]
    constructor
    · intro now2 server2 ctx2 hlt
      exact vpc_of_fresh agent policy ctx2 cfg _ now2 server2
        ⟨r, now + cfg.cache_ttl⟩ (cacheGet_insert_self _ _ _)
        (show now + cfg.cache_ttl > now2 by omega)
    · intro now2 server2 ctx2 hge
      rw [vpc_of_not_fresh agent policy ctx2 cfg _ now2 server2 ?_]
      · exact vpcCallServer_called _ _ _ _ _
      · unfold cacheFresh
        rw [cacheGet_insert_self]
        exact decide_eq_false (show ¬(now + cfg.cache_ttl > now2) by omega)

/-- C2 witness: the theorem applied at a concrete input; a denied
server response leaves the cache unchanged. -/
theorem C2_witness :
    (verify_policy_compliance "agent-1" "pol-1" ctxSmall {} [] 0
      (some ⟨200, denyResult⟩)).cache = ([] : Cache) :=
  (C2_cache_write_iff_allow "agent-1" "pol-1" ctxSmall {} [] 0
    (some ⟨200, denyResult⟩)).1
    (by intro resp h; cases h; exact Or.inr rfl)

/-- C1 witness: the amended theorem applied at a concrete input. -/
theorem C1_witness :
    (verify_policy_compliance "agent-1" "pol-1" ctxLarge {}
      (verify_policy_compliance "agent-1" "pol-1" ctxSmall {} [] 0
        (some ⟨200, allowResult⟩)).cache 1 none).result = some allowResult ∧
    (verify_policy_compliance "agent-1" "pol-1" ctxLarge {}
      (verify_policy_compliance "agent-1" "pol-1" ctxSmall {} [] 0
        (some ⟨200, allowResult⟩)).cache 1 none).called = false :=
  C1_cache_ignores_context "agent-1" "pol-1" ctxSmall ctxLarge {} [] 0 1
    allowResult none (by decide) (by decide) (by decide)

theorem optGetD_false_eq_true (o : Option Bool) :
    (o.getD false = true) ↔ o = some true := by
  cases o <;> simp

/-- C3: the claim says that whenever policy verification completes with
`allow = false` the middleware denies the request and the denial is
never bypassed.  Counterexample: with `fail_closed = False` the
middleware built by `create_agent_passport_middleware` logs the
violation and proceeds to `call_next` although the verification
completed and returned a denial. -/
theorem C3_counterexample :
    denyResult.allow = false ∧
    (verify_policy_compliance "agent-1" "pol-1" ctxSmall cfgOpen [] 0
      (some ⟨200, denyResult⟩)).result = some denyResult ∧
    (create_agent_passport_middleware_run "agent-1" cfgOpen (some "pol-1")
      ctxSmall [] 0 (some ⟨200, denyResult⟩) none).outcome =
      MwOutcome.next none := by
  refine ⟨rfl, rfl, rfl⟩

/-- C3 (amended): when policy verification completes and returns
`allow = false`, the middleware with `fail_closed = true` (the default)
raises an HTTP 403 whose detail carries the error code
`policy_violation`, the reason as message, the violations, the agent id
and the policy id; with `fail_closed = false` the violation is only
logged and the request proceeds. -/
theorem C3_denial_response (agent pid : String) (ctx : Ctx)
    (cfg : PolicyEnforcementConfig) (cache : Cache) (now : Int)
    (server : Option ServerResp) (pp : Option PolicyPack) (r : VerifyResult)
    (hen : cfg.enabled = true) (hpid : pid ≠ "")
    (hv : (verify_policy_compliance agent pid ctx cfg cache now
      server).result = some r)
    (hallow : r.allow = false) :
    (cfg.fail_closed = true →
      (create_agent_passport_middleware_run agent cfg (some pid) ctx cache
        now server pp).outcome =
        MwOutcome.httpError 403 (MwDetail.policy_violation
          (r.reason.getD "Policy violation") r.violations agent pid)) ∧
    (cfg.fail_closed = false →
      (create_agent_passport_middleware_run agent cfg (some pid) ctx cache
        now server pp).outcome = MwOutcome.next none) := by
  have hp : pyTruthy (some pid) = true := by simp [pyTruthy, hpid]
  unfold create_agent_passport_middleware_run
  simp only [hen, hp, Bool.not_true, Bool.false_eq_true, if_false,
    not_true_eq_false, not_false_eq_true, if_true, ite_false, Option.getD_some]
  rw [hv]
  simp only [hallow, Bool.false_eq_true, not_false_eq_true, if_true]
  constructor
  · intro hfc; simp [hfc]
  · intro hfc; simp [hfc]

/-- C3 witness: the amended theorem applied at a concrete input, with
the default (fail-closed) configuration. -/
theorem C3_witness :
    (create_agent_passport_middleware_run "agent-1" {} (some "pol-1")
      ctxSmall [] 0 (some ⟨200, denyResult⟩) none).outcome =
      MwOutcome.httpError 403 (MwDetail.policy_violation "limit_exceeded"
        ["refund_amount_max_per_tx"] "agent-1" "pol-1") :=
  (C3_denial_response "agent-1" "pol-1" ctxSmall {} [] 0
    (some ⟨200, denyResult⟩) none denyResult rfl (by decide) rfl rfl).1 rfl

/-- C4: a request has policy access exactly when a policy result is
attached and every value of its `checks` dictionary is true; a
dimension flag missing from the evaluation payload defaults to false
and therefore forces denial. -/
theorem C4_access_iff_all_checks (resp : VerifyResult) (policy : PolicyPack) :
    (has_policy_access (some (convert_policy_response resp policy)) = true ↔
      ((resp.passport.getD {}).evaluation.getD {}).capability_ok = some true ∧
      ((resp.passport.getD {}).evaluation.getD {}).assurance_ok = some true ∧
      ((resp.passport.getD {}).evaluation.getD {}).limits_ok = some true ∧
      ((resp.passport.getD {}).evaluation.getD {}).regions_ok = some true) ∧
    has_policy_access none = false := by
  refine ⟨?_, rfl⟩
  unfold has_policy_access get_policy_result convert_policy_response
  simp [List.all, optGetD_false_eq_true]

/-- C4 witness: the theorem applied at a concrete input whose
evaluation passed every dimension. -/
theorem C4_witness :
    has_policy_access (some (convert_policy_response fullAllowResult {})) =
      true :=
  (C4_access_iff_all_checks fullAllowResult {}).1.mpr ⟨rfl, rfl, rfl, rfl⟩

/-- C5: when the verification yields no result (directory unreachable,
timeout, or non-success status), the middleware with
`fail_closed = true` denies with an HTTP 500 system error, and with
`fail_closed = false` proceeds to the handler with no policy result
attached. -/
theorem C5_fail_closed_governs (agent pid : String) (ctx : Ctx)
    (cfg : PolicyEnforcementConfig) (cache : Cache) (now : Int)
    (server : Option ServerResp) (pp : Option PolicyPack)
    (hen : cfg.enabled = true) (hpid : pid ≠ "")
    (hv : (verify_policy_compliance agent pid ctx cfg cache now
      server).result = none) :
    (cfg.fail_closed = true →
      (create_agent_passport_middleware_run agent cfg (some pid) ctx cache
        now server pp).outcome =
        MwOutcome.httpError 500 MwDetail.policy_verification_failed) ∧
    (cfg.fail_closed = false →
      (create_agent_passport_middleware_run agent cfg (some pid) ctx cache
        now server pp).outcome = MwOutcome.next none) := by
  have hp : pyTruthy (some pid) = true := by simp [pyTruthy, hpid]
  unfold create_agent_passport_middleware_run
  simp only [hen, hp, Bool.not_true, Bool.false_eq_true, if_false,
    not_true_eq_false, not_false_eq_true, if_true, ite_false, Option.getD_some]
  rw [hv]
  constructor
  · intro hfc; simp [hfc]
  · intro hfc; simp [hfc]

/-- C5 witness: the theorem applied at a concrete input; the directory
raises (modelled by `server = none`), and under the default fail-closed
configuration the request is denied with a 500 system error. -/
theorem C5_witness :
    (create_agent_passport_middleware_run "agent-1" {} (some "pol-1")
      ctxSmall [] 0 none none).outcome =
      MwOutcome.httpError 500 MwDetail.policy_verification_failed :=
  (C5_fail_closed_governs "agent-1" "pol-1" ctxSmall {} [] 0 none none rfl
    (by decide) rfl).1 rfl

end PolicyEnforcementV2

namespace MiddlewareV2

/-- The precondition of claim C8: every capability entry is either a
plain string or a record whose `id` field holds a string. -/
def isStrOrRecordWithId : PyVal → Bool
  | .str _ => true
  | .dict (some (.str _)) => true
  | _ => false

/-- C6: within `middleware_v2.dispatch` the five enforcement
dimensions are consumed in the fixed order capability, assurance,
mcp/tool, region, limits, and the first failing dimension determines
the denial.  In particular an agent failing both the capability and
the assurance check receives the capability denial. -/
theorem C6_evaluator_order (opts : MwOptions) (method path : String)
    (headers : Headers) (agent : Agent)
    (hasPermission allowedInRegion : String → Bool) (checks : SdkChecks)
    (hskip : should_skip_request opts method path = false)
    (hid : pyTruthy (extract_agent_id headers) = true)
    (hperm : opts.required_permissions.all hasPermission = true)
    (hreg : (opts.allowed_regions.isEmpty ||
      opts.allowed_regions.any allowedInRegion) = true) :
    (checks.capability.allowed = false →
      (dispatch opts method path headers (.ok agent) hasPermission
        allowedInRegion checks).resp =
        .json 403 (.insufficient_capabilities checks.capability.required
          checks.capability.missing
          (extract_capability_ids agent.capabilities))) ∧
    (checks.capability.allowed = true → checks.assurance.allowed = false →
      (dispatch opts method path headers (.ok agent) hasPermission
        allowedInRegion checks).resp =
        .json 403 (.insufficient_assurance checks.assurance)) ∧
    (checks.capability.allowed = true → checks.assurance.allowed = true →
      checks.mcp.allowed = false →
      (dispatch opts method path headers (.ok agent) hasPermission
        allowedInRegion checks).resp =
        .json 403 (.mcp_denied
          (checks.mcp.error.getD ⟨"mcp_denied", "MCP access denied"⟩))) ∧
    (checks.capability.allowed = true → checks.assurance.allowed = true →
      checks.mcp.allowed = true → checks.region.allowed = false →
      (dispatch opts method path headers (.ok agent) hasPermission
        allowedInRegion checks).resp =
        .json 403 (.region_check_failed
          (checks.region.reason.getD "region_not_allowed")
          (checks.region.error.getD "Region validation failed")
          opts.allowed_regions agent.regions)) ∧
    (checks.capability.allowed = true → checks.assurance.allowed = true →
      checks.mcp.allowed = true → checks.region.allowed = true →
      checks.limits.allowed = false →
      (dispatch opts method path headers (.ok agent) hasPermission
        allowedInRegion checks).resp =
        .json 403 (.limits_exceeded checks.limits.violations
          (agent.limits.getD []))) := by
  have hreg2 : opts.allowed_regions.isEmpty = true ∨
      opts.allowed_regions.any allowedInRegion = true := by simpa using hreg
  rcases hreg2 with hr | hr
  all_goals refine ⟨?_, ?_, ?_, ?_, ?_⟩
  all_goals intro h1
  all_goals try intro h2
  all_goals try intro h3
  all_goals try intro h4
  all_goals try intro h5
  all_goals simp_all [dispatch, hskip, hid, hperm, hr]

/-- C6 witness: the theorem applied at a concrete input where both the
capability check and the assurance check fail; the returned denial is
the capability failure. -/
theorem C6_witness :
    (dispatch {} "POST" "/api/refund"
      [("x-agent-passport-id", "agent-1")] (.ok {}) (fun _ => true)
      (fun _ => true)
      { capability := { allowed := false, missing := ["data.export"] }
        assurance := { allowed := false }
        mcp := { allowed := true }
        region := { allowed := true }
        limits := { allowed := true } }).resp =
      .json 403 (.insufficient_capabilities [] ["data.export"] []) :=
  (C6_evaluator_order {} "POST" "/api/refund"
    [("x-agent-passport-id", "agent-1")] {} (fun _ => true) (fun _ => true)
    { capability := { allowed := false, missing := ["data.export"] }
      assurance := { allowed := false }
      mcp := { allowed := true }
      region := { allowed := true }
      limits := { allowed := true } }
    rfl (by decide) rfl rfl).1 rfl

/-- C8: on a capabilities list whose entries are plain strings or
records with a string `id` field, `_extract_capability_ids` yields a
list of strings only, keeping each string and replacing each record by
its `id` field. -/
theorem C8_capability_normalization (caps : List PyVal)
    (h : caps.all isStrOrRecordWithId = true) :
    ((extract_capability_ids caps).all PyVal.isStr = true) ∧
    (∀ s rest, extract_capability_ids (PyVal.str s :: rest) =
      PyVal.str s :: extract_capability_ids rest) ∧
    (∀ v rest, extract_capability_ids (PyVal.dict (some v) :: rest) =
      v :: extract_capability_ids rest) := by
  refine ⟨?_, fun s rest => rfl, fun v rest => rfl⟩
  induction caps with
  | nil => rfl
  | cons c rest ih =>
    rw [List.all_cons, Bool.and_eq_true] at h
    obtain ⟨hc, hrest⟩ := h
    cases c with
    | str s =>
      simp only [extract_capability_ids, List.all_cons, Bool.and_eq_true]
      exact ⟨rfl, ih hrest⟩
    | dict idField =>
      cases idField with
      | none => simp [isStrOrRecordWithId] at hc
      | some v =>
        cases v with
        | str s =>
          simp only [extract_capability_ids, List.all_cons, Bool.and_eq_true]
          exact ⟨rfl, ih hrest⟩
        | dict d => simp [isStrOrRecordWithId] at hc
        | other r => simp [isStrOrRecordWithId] at hc
    | other r => simp [isStrOrRecordWithId] at hc

/-- C8 witness: the theorem applied at a concrete mixed capabilities
list. -/
theorem C8_witness :
    (extract_capability_ids
      [PyVal.str "finance.payment.refund",
       PyVal.dict (some (PyVal.str "data.export"))]).all PyVal.isStr =
      true :=
  (C8_capability_normalization
    [PyVal.str "finance.payment.refund",
     PyVal.dict (some (PyVal.str "data.export"))] rfl).1

end MiddlewareV2

/-- C7: the claim says all three middleware variants answer a
non-skipped request without any agent identifier with an HTTP 400
input error.  Counterexample: `middleware_v3.dispatch`, with
fail-closed defaults and no identifying header, returns status 401,
not 400. -/
theorem C7_counterexample :
    (MiddlewareV3.dispatch {} "GET" "/api/refund" [] (.ok {}) (.ok true)
      (.ok (some ())) (.ok { allowed := true }) none).resp =
      MiddlewareV3.Response.json 401 MiddlewareV3.Body.missing_agent_id ∧
    (401 : Nat) ≠ 400 := by
  exact ⟨rfl, by decide⟩

/-- C7 (amended): a non-skipped request with no agent identifier under
`fail_closed = true` is rejected without any directory contact, with a
400 `missing_agent_id` error in `middleware_simple` and
`middleware_v2`, and with a 401 `missing_agent_id` error in
`middleware_v3`. -/
theorem C7_missing_agent_id (opts : MwOptions) (method path : String)
    (headers : Headers) (verify : VerifyOutcome)
    (hasPermission allowedInRegion : String → Bool)
    (checks : MiddlewareV2.SdkChecks) (hasAccess : Except String Bool)
    (policy : Except String (Option Unit))
    (verifyRes : Except String MiddlewareV3.V3VerifyResult)
    (extractedResult : Option MiddlewareV3.Evaluation)
    (hskip1 : MiddlewareSimple.should_skip_request opts method path = false)
    (hskip2 : MiddlewareV2.should_skip_request opts method path = false)
    (hskip3 : MiddlewareV3.should_skip_verification opts method path = false)
    (hid : pyTruthy (extract_agent_id headers) = false)
    (hfc : opts.fail_closed = true) :
    MiddlewareSimple.dispatch opts method path headers verify =
      ⟨.json 400 .missing_agent_id, false⟩ ∧
    MiddlewareV2.dispatch opts method path headers verify hasPermission
      allowedInRegion checks = ⟨.json 400 .missing_agent_id, false⟩ ∧
    MiddlewareV3.dispatch opts method path headers verify hasAccess policy
      verifyRes extractedResult = ⟨.json 401 .missing_agent_id, false⟩ := by
  refine ⟨?_, ?_, ?_⟩
  · simp [MiddlewareSimple.dispatch, hskip1, hid, hfc]
  · simp [MiddlewareV2.dispatch, hskip2, hid, hfc]
  · simp [MiddlewareV3.dispatch, MiddlewareV3.extract_agent_id_from_request,
      hskip3, hid, hfc]

/-- C7 witness: the amended theorem applied at a concrete input with no
identifying header. -/
theorem C7_witness :
    MiddlewareSimple.dispatch {} "GET" "/api/refund" [] (.ok {}) =
      ⟨.json 400 .missing_agent_id, false⟩ ∧
    MiddlewareV2.dispatch {} "GET" "/api/refund" [] (.ok {})
      (fun _ => true) (fun _ => true)
      { capability := { allowed := true }
        assurance := { allowed := true }
        mcp := { allowed := true }
        region := { allowed := true }
        limits := { allowed := true } } =
      ⟨.json 400 .missing_agent_id, false⟩ ∧
    MiddlewareV3.dispatch {} "GET" "/api/refund" [] (.ok {}) (.ok true)
      (.ok (some ())) (.ok { allowed := true }) none =
      ⟨.json 401 .missing_agent_id, false⟩ :=
  C7_missing_agent_id {} "GET" "/api/refund" [] (.ok {}) (fun _ => true)
    (fun _ => true)
    { capability := { allowed := true }
      assurance := { allowed := true }
      mcp := { allowed := true }
      region := { allowed := true }
      limits := { allowed := true } }
    (.ok true) (.ok (some ())) (.ok { allowed := true }) none
    rfl rfl rfl rfl rfl

/-- C9: the claim says every unexpected exception is normalized to a
generic internal-error payload that never depends on the exception
text.  Counterexample: `middleware_v3._run_enforcement_checks` embeds
`str(e)` in the 500 detail, so two different exception messages yield
two different payloads. -/
theorem C9_counterexample :
    MiddlewareV3.run_enforcement_checks "agent-1" "pol-1"
      (Except.error "boom") (Except.ok (some ()))
      (Except.ok { allowed := true }) none =
      Except.error ⟨500, ⟨"enforcement_error",
        "Failed to run enforcement checks: boom", some "agent-1",
        some "pol-1", none⟩⟩ ∧
    MiddlewareV3.run_enforcement_checks "agent-1" "pol-1"
      (Except.error "bang") (Except.ok (some ()))
      (Except.ok { allowed := true }) none =
      Except.error ⟨500, ⟨"enforcement_error",
        "Failed to run enforcement checks: bang", some "agent-1",
        some "pol-1", none⟩⟩ ∧
    ("Failed to run enforcement checks: boom" : String) ≠
      "Failed to run enforcement checks: bang" := by
  exact ⟨rfl, rfl, by decide⟩

/-- C9 (amended): `middleware_v2.dispatch` normalizes an unexpected
exception to a constant 500 `internal_error` payload independent of
the exception message, while `middleware_v3._run_enforcement_checks`
wraps an unexpected exception into a 500 `enforcement_error` payload
whose message embeds the exception text. -/
theorem C9_internal_error_payloads (opts : MwOptions) (method path : String)
    (headers : Headers) (hasPermission allowedInRegion : String → Bool)
    (checks : MiddlewareV2.SdkChecks) (agent_id policy_id : String)
    (policy : Except String (Option Unit))
    (verifyRes : Except String MiddlewareV3.V3VerifyResult)
    (extractedResult : Option MiddlewareV3.Evaluation)
    (hskip : MiddlewareV2.should_skip_request opts method path = false)
    (hid : pyTruthy (extract_agent_id headers) = true) :
    (∀ msg1 msg2 : String,
      MiddlewareV2.dispatch opts method path headers (.unexpected msg1)
        hasPermission allowedInRegion checks =
        MiddlewareV2.dispatch opts method path headers (.unexpected msg2)
          hasPermission allowedInRegion checks ∧
      (MiddlewareV2.dispatch opts method path headers (.unexpected msg1)
        hasPermission allowedInRegion checks).resp =
        .json 500 .internal_error) ∧
    (∀ msg : String,
      MiddlewareV3.run_enforcement_checks agent_id policy_id
        (Except.error msg) policy verifyRes extractedResult =
        Except.error ⟨500, ⟨"enforcement_error",
          "Failed to run enforcement checks: " ++ msg, some agent_id,
          some policy_id, none⟩⟩) := by
  constructor
  · intro msg1 msg2
    constructor
    · simp [MiddlewareV2.dispatch, hskip, hid]
    · simp [MiddlewareV2.dispatch, hskip, hid]
  · intro msg
    rfl

/-- C9 witness: the amended theorem applied at a concrete input. -/
theorem C9_witness :
    MiddlewareV2.dispatch {} "POST" "/api/refund"
      [("x-agent-passport-id", "agent-1")] (.unexpected "boom")
      (fun _ => true) (fun _ => true)
      { capability := { allowed := true }
        assurance := { allowed := true }
        mcp := { allowed := true }
        region := { allowed := true }
        limits := { allowed := true } } =
      MiddlewareV2.dispatch {} "POST" "/api/refund"
        [("x-agent-passport-id", "agent-1")] (.unexpected "bang")
        (fun _ => true) (fun _ => true)
        { capability := { allowed := true }
          assurance := { allowed := true }
          mcp := { allowed := true }
          region := { allowed := true }
          limits := { allowed := true } } ∧
    (MiddlewareV2.dispatch {} "POST" "/api/refund"
      [("x-agent-passport-id", "agent-1")] (.unexpected "boom")
      (fun _ => true) (fun _ => true)
      { capability := { allowed := true }
        assurance := { allowed := true }
        mcp := { allowed := true }
        region := { allowed := true }
        limits := { allowed := true } }).resp =
      .json 500 .internal_error :=
  (C9_internal_error_payloads {} "POST" "/api/refund"
    [("x-agent-passport-id", "agent-1")] (fun _ => true) (fun _ => true)
    { capability := { allowed := true }
      assurance := { allowed := true }
      mcp := { allowed := true }
      region := { allowed := true }
      limits := { allowed := true } }
    "agent-1" "pol-1" (.ok (some ())) (.ok { allowed := true }) none
    rfl (by decide)).1 "boom" "bang"

/-- C10: a request whose method is listed in `skip_methods`, or whose
path matches an entry of `skip_paths` (prefix match in
`middleware_simple` and `middleware_v2`, exact equality in
`middleware_v3`), is passed straight to the downstream handler: no
verification happens, the directory is not contacted, and nothing is
attached to the request state. -/
theorem C10_skip_bypasses_verification (opts : MwOptions)
    (method path : String) (headers : Headers) (verify : VerifyOutcome)
    (hasPermission allowedInRegion : String → Bool)
    (checks : MiddlewareV2.SdkChecks) (hasAccess : Except String Bool)
    (policy : Except String (Option Unit))
    (verifyRes : Except String MiddlewareV3.V3VerifyResult)
    (extractedResult : Option MiddlewareV3.Evaluation) :
    ((opts.skip_methods.contains method = true ∨
        opts.skip_paths.any (fun p => path.startsWith p) = true) →
      MiddlewareSimple.dispatch opts method path headers verify =
        ⟨.next none, false⟩ ∧
      MiddlewareV2.dispatch opts method path headers verify hasPermission
        allowedInRegion checks = ⟨.next none, false⟩) ∧
    ((opts.skip_methods.contains method = true ∨
        opts.skip_paths.contains path = true) →
      MiddlewareV3.dispatch opts method path headers verify hasAccess
        policy verifyRes extractedResult = ⟨.next none none, false⟩) := by
  constructor
  · intro h
    have hs : MiddlewareSimple.should_skip_request opts method path = true := by
      unfold MiddlewareSimple.should_skip_request
      rcases h with h | h
      · rw [h]; rfl
      · rw [h, Bool.or_true]
    have hv : MiddlewareV2.should_skip_request opts method path = true := by
      unfold MiddlewareV2.should_skip_request
      rcases h with h | h
      · rw [h]; rfl
      · rw [h, Bool.or_true]
    exact ⟨by simp [MiddlewareSimple.dispatch, hs],
      by simp [MiddlewareV2.dispatch, hv]⟩
  · intro h
    have hs : MiddlewareV3.should_skip_verification opts method path = true := by
      unfold MiddlewareV3.should_skip_verification
      rcases h with h | h
      · rw [h, Bool.or_true]
      · rw [h]; rfl
    simp [MiddlewareV3.dispatch, hs]

/-- C10 witness: the theorem applied at a concrete input; an OPTIONS
request is skipped by all three middleware variants under the default
options. -/
theorem C10_witness :
    MiddlewareSimple.dispatch {} "OPTIONS" "/api/refund" [] (.ok {}) =
      ⟨.next none, false⟩ ∧
    MiddlewareV2.dispatch {} "OPTIONS" "/api/refund" [] (.ok {})
      (fun _ => true) (fun _ => true)
      { capability := { allowed := true }
        assurance := { allowed := true }
        mcp := { allowed := true }
        region := { allowed := true }
        limits := { allowed := true } } = ⟨.next none, false⟩ ∧
    MiddlewareV3.dispatch {} "OPTIONS" "/api/refund" [] (.ok {}) (.ok true)
      (.ok (some ())) (.ok { allowed := true }) none =
      ⟨.next none none, false⟩ := by
  have h := C10_skip_bypasses_verification {} "OPTIONS" "/api/refund" []
    (.ok {}) (fun _ => true) (fun _ => true)
    { capability := { allowed := true }
      assurance := { allowed := true }
      mcp := { allowed := true }
      region := { allowed := true }
      limits := { allowed := true } }
    (.ok true) (.ok (some ())) (.ok { allowed := true }) none
  obtain ⟨h12, h3⟩ := h
  obtain ⟨h1, h2⟩ := h12 (Or.inl rfl)
  exact ⟨h1, h2, h3 (Or.inl rfl)⟩

end AportMiddleware
